import Mathlib

/-
Verification development for the zen-screentime tracker core
(screentime/tracker.py, class ScreenTimeTracker).

The Python source is shallowly embedded below:
- timestamps are modelled as whole seconds (Nat); the source compares
  `int(current_time - self.last_check)`, so whole-second arithmetic on Nat
  coincides with the source on whole-second tick times;
- optional values (None) become Option;
- Python exceptions become an explicit `Except PyExc` in the bodies of the
  functions that can raise, with the source's `except` clauses modelled as an
  outer handler;
- external programs (xdotool, xprop, swaymsg, hyprctl, which) are modelled by
  an environment record that fixes each invocation's behaviour (missing
  binary, timeout, or completion with an exit code and output); the list of
  program names launched on a given run is returned alongside the result so
  that invocation-counting properties can be stated.
-/

/- ===== AccountingLoop state (ScreenTimeTracker.__init__ / start) ===== -/

/-- State carried by the accounting loop across ticks:
`self.last_window : Optional[Tuple[str, str]]` and
`self.last_check : Optional[float]` (here whole seconds). -/
structure TrackerState where
  last_window : Option (String × String)
  last_check : Option Nat
deriving DecidableEq, Repr

/-- One iteration of the `while True` body of `ScreenTimeTracker.start`
(tracker.py lines 174-190), as a pure state transformer.  Inputs: the state,
`current_time = time.time()` (whole seconds) and
`window_info = self.get_active_window()`.  Output: the updated state and the
argument of the at-most-one `self.db.record_activity(app, title, duration)`
call made on this tick.  The source guard is
`if self.last_window == window_info and self.last_check:`; Python truthiness
of `self.last_check` makes both `None` and the timestamp `0` fail the guard,
hence the `last_check ≠ 0` conjunct. -/
def tick (s : TrackerState) (current_time : Nat) (window_info : Option (String × String)) :
    TrackerState × Option (String × String × Nat) :=
  match window_info with
  | some wi =>
    let recorded : Option (String × String × Nat) :=
      match s.last_check with
      | some last_check =>
        if s.last_window = some wi ∧ last_check ≠ 0 then
          -- duration = int(current_time - self.last_check)
          let duration := current_time - last_check
          if 0 < duration then some (wi.1, wi.2, duration) else none
        else none
      | none => none
    -- self.last_window = window_info  (only when a sample was obtained)
    -- self.last_check = current_time  (unconditional)
    (⟨some wi, some current_time⟩, recorded)
  | none => (⟨s.last_window, some current_time⟩, none)

/-- Run the loop body over a list of `(timestamp, poll result)` ticks,
collecting every span handed to the recorder. -/
def runTicks : TrackerState → List (Nat × Option (String × String)) →
    TrackerState × List (String × String × Nat)
  | s, [] => (s, [])
  | s, (now, sample) :: rest =>
    let step := tick s now sample
    let cont := runTicks step.1 rest
    (cont.1, step.2.toList ++ cont.2)

/-- Schedule of `n` consecutive ticks, all reporting the sample `w`, at times
`next, next + i, next + 2*i, ...` (spacing `i` whole seconds). -/
def ticksFrom (w : String × String) (next i : Nat) : Nat → List (Nat × Option (String × String))
  | 0 => []
  | n + 1 => (next, some w) :: ticksFrom w (next + i) i n

/-- Total duration of a list of recorded spans. -/
def spanDurationSum (spans : List (String × String × Nat)) : Nat :=
  (spans.map (fun r => r.2.2)).sum

/- ===== Python string primitives (str.split, str.strip) ===== -/

/-- Python single-character `str.split(sep)`: splits at every occurrence of
`sep`, keeping empty pieces (so `''.split(sep) == ['']` and a leading or
trailing separator yields an empty piece). -/
def pySplit (sep : Char) : List Char → List (List Char)
  | [] => [[]]
  | c :: rest =>
    if c = sep then [] :: pySplit sep rest
    else
      match pySplit sep rest with
      | [] => [[c]]
      | h :: t => (c :: h) :: t

/-- Characters removed by Python `str.strip()` (ASCII whitespace). -/
def isPySpace (c : Char) : Bool :=
  c == ' ' || c == '\t' || c == '\n' || c == '\r' || c == '\x0B' || c == '\x0C'

/-- Strip characters satisfying `p` from both ends of a char list. -/
def stripWith (p : Char → Bool) (l : List Char) : List Char :=
  ((l.dropWhile p).reverse.dropWhile p).reverse

/-- Python `str.strip()` on a char list. -/
def pyStrip (l : List Char) : List Char := stripWith isPySpace l

/-- Python `str.strip('"')` on a char list. -/
def stripQuotes (l : List Char) : List Char := stripWith (fun c => c == '"') l

/-- Parsing of the `xprop -id <id> WM_CLASS` output in
`_get_active_window_x11` (tracker.py lines 83-95), applied to the already
stripped `output = result.stdout.strip()`:
`if '=' in output: class_info = output.split('=')[1].strip();`
`parts = class_info.split(',');`
`app_name = (parts[1] if len(parts) >= 2 else parts[0]).strip().strip('"')`
`else: app_name = 'Unknown'`.
The `getD` defaults are unreachable: `pySplit` never returns `[]`, and when
`'='` occurs in `output` the outer split has at least two pieces, matching
the indexing that Python performs without a bounds check. -/
def parseWMClassApp (output : List Char) : List Char :=
  if '=' ∈ output then
    let class_info := pyStrip ((pySplit '=' output).getD 1 [])
    let parts := pySplit ',' class_info
    if 2 ≤ parts.length then stripQuotes (pyStrip (parts.getD 1 []))
    else stripQuotes (pyStrip (parts.getD 0 []))
  else "Unknown".data

/- ===== External tool model and backends ===== -/

/-- Python exception kinds raised by the embedded code. -/
inductive PyExc where
  | fileNotFound
  | timeoutExpired
  | subprocessError
  | jsonError
  | attributeError
  | valueError
  | processLookup
deriving DecidableEq, Repr

/-- Behaviour of one external-program invocation via `subprocess.run`: the
binary may be missing (`FileNotFoundError`), the call may exceed its
1-second timeout (`subprocess.TimeoutExpired`), or it completes with an exit
code and a stdout value of type `σ`. -/
inductive ToolRun (σ : Type) where
  | missing
  | timeout
  | done (returncode : Int) (stdout : σ)
deriving DecidableEq, Repr

/-- Result of `json.loads` on a tool's stdout: the text may fail to parse
(`json.JSONDecodeError`), parse to a non-object (so the subsequent `.get`
attribute access raises `AttributeError`), or parse to the expected
shape `α`. -/
inductive JsonOutcome (α : Type) where
  | malformed
  | notObject
  | obj (val : α)
deriving DecidableEq, Repr

/-- Node of the Sway window tree (`swaymsg -t get_tree` output), restricted
to the fields the tracker reads: `focused`, `app_id`,
`window_properties`/`class` (collapsed into one optional field: `none`
models both a missing `window_properties` object and a missing `class` key),
`name`, `nodes` and `floating_nodes`. -/
inductive SwayNode where
  | mk (focused : Bool) (app_id : Option String) (windowClass : Option String)
      (name : Option String) (nodes : List SwayNode) (floating_nodes : List SwayNode)

def SwayNode.focused : SwayNode → Bool
  | .mk f _ _ _ _ _ => f

def SwayNode.app_id : SwayNode → Option String
  | .mk _ a _ _ _ _ => a

def SwayNode.windowClass : SwayNode → Option String
  | .mk _ _ w _ _ _ => w

def SwayNode.name : SwayNode → Option String
  | .mk _ _ _ n _ _ => n

mutual

/-- `_find_focused_window` (tracker.py lines 147-157): depth-first search for
the node whose `focused` flag is set.  The source iterates over
`node.get('nodes', []) + node.get('floating_nodes', [])`; searching the
concatenation left to right is the same as searching `nodes` completely and
then `floating_nodes`, which is how the recursion is phrased here. -/
def findFocusedWindow : SwayNode → Option SwayNode
  | .mk focused a w nm ns fl =>
    if focused then some (.mk focused a w nm ns fl)
    else
      match findFocusedList ns with
      | some r => some r
      | none => findFocusedList fl

/-- Search a list of child nodes in order. -/
def findFocusedList : List SwayNode → Option SwayNode
  | [] => none
  | n :: rest =>
    match findFocusedWindow n with
    | some r => some r
    | none => findFocusedList rest

end

/-- Fields of the `hyprctl activewindow -j` JSON object that the tracker
reads (`class`, `title`); `none` models a missing key. -/
structure HyprWindow where
  winClass : Option String
  title : Option String
deriving DecidableEq, Repr

/-- Behaviour of the three X11 tool invocations made by
`_get_active_window_x11`, in call order: `xdotool getactivewindow`,
`xdotool getwindowname <id>`, `xprop -id <id> WM_CLASS`. -/
structure X11Env where
  getactivewindow : ToolRun String
  getwindowname : ToolRun String
  xprop : ToolRun String
deriving DecidableEq, Repr

/-- Body of `_get_active_window_x11` (tracker.py lines 50-102) before its
`except` clause, paired with the list of external programs launched (the
argv head of each `subprocess.run`).  `window_id = result.stdout.strip()`
is only passed as an argument to the later invocations, whose behaviour the
environment already fixes, so it needs no separate tracking. -/
def x11Attempt (env : X11Env) : Except PyExc (Option (String × String)) × List String :=
  match env.getactivewindow with
  | .missing => (.error .fileNotFound, ["xdotool"])
  | .timeout => (.error .timeoutExpired, ["xdotool"])
  | .done rc _ =>
    if rc ≠ 0 then (.ok none, ["xdotool"])
    else
      match env.getwindowname with
      | .missing => (.error .fileNotFound, ["xdotool", "xdotool"])
      | .timeout => (.error .timeoutExpired, ["xdotool", "xdotool"])
      | .done rc2 out2 =>
        let window_title := if rc2 = 0 then String.mk (pyStrip out2.data) else "Unknown"
        match env.xprop with
        | .missing => (.error .fileNotFound, ["xdotool", "xdotool", "xprop"])
        | .timeout => (.error .timeoutExpired, ["xdotool", "xdotool", "xprop"])
        | .done rc3 out3 =>
          let app_name :=
            if rc3 = 0 then String.mk (parseWMClassApp (pyStrip out3.data)) else "Unknown"
          (.ok (some (app_name, window_title)), ["xdotool", "xdotool", "xprop"])

/-- Exceptions caught by the `except` clause of `_get_active_window_x11`:
`(subprocess.TimeoutExpired, subprocess.SubprocessError, FileNotFoundError)`. -/
def x11Caught : PyExc → Bool
  | .fileNotFound => true
  | .timeoutExpired => true
  | .subprocessError => true
  | _ => false

/-- `_get_active_window_x11` with its `except` clause applied: a caught
exception becomes `None`; any other exception would escape (the totality
theorem below shows none can). -/
def get_active_window_x11 (env : X11Env) :
    Except PyExc (Option (String × String)) × List String :=
  match x11Attempt env with
  | (.ok r, tr) => (.ok r, tr)
  | (.error e, tr) => if x11Caught e then (.ok none, tr) else (.error e, tr)

/-- Environment of `_get_active_window_wayland`: whether `swaymsg` and
`hyprctl` are on PATH (probed by `_command_exists`, which runs `which`), and
the behaviour of each compositor query. -/
structure WaylandEnv where
  hasSwaymsg : Bool
  hasHyprctl : Bool
  swaymsg : ToolRun (JsonOutcome SwayNode)
  hyprctl : ToolRun (JsonOutcome HyprWindow)

/-- application id read from the focused Sway node:
`focused.get('app_id') or focused.get('window_properties', {}).get('class', 'Unknown')`
(Python `or` falls through both on `None` and on the empty string). -/
def swayAppName (n : SwayNode) : String :=
  match n.app_id with
  | some s => if s = "" then n.windowClass.getD "Unknown" else s
  | none => n.windowClass.getD "Unknown"

/-- Body of `_get_active_window_wayland` (tracker.py lines 104-145) before
its `except` clause, with the launched-programs trace (`_command_exists`
launches `which`).  When `swaymsg` is on PATH the `elif` branch for
`hyprctl` is never reached; when the Sway query fails or no focused node is
found, control falls through to the final `return None`. -/
def waylandAttempt (env : WaylandEnv) :
    Except PyExc (Option (String × String)) × List String :=
  if env.hasSwaymsg then
    match env.swaymsg with
    | .missing => (.error .fileNotFound, ["which", "swaymsg"])
    | .timeout => (.error .timeoutExpired, ["which", "swaymsg"])
    | .done rc out =>
      if rc = 0 then
        match out with
        | .malformed => (.error .jsonError, ["which", "swaymsg"])
        | .notObject => (.error .attributeError, ["which", "swaymsg"])
        | .obj tree =>
          match findFocusedWindow tree with
          | some focused =>
            (.ok (some (swayAppName focused, focused.name.getD "Unknown")),
              ["which", "swaymsg"])
          | none => (.ok none, ["which", "swaymsg"])
      else (.ok none, ["which", "swaymsg"])
  else if env.hasHyprctl then
    match env.hyprctl with
    | .missing => (.error .fileNotFound, ["which", "which", "hyprctl"])
    | .timeout => (.error .timeoutExpired, ["which", "which", "hyprctl"])
    | .done rc out =>
      if rc = 0 then
        match out with
        | .malformed => (.error .jsonError, ["which", "which", "hyprctl"])
        | .notObject => (.error .attributeError, ["which", "which", "hyprctl"])
        | .obj w =>
          (.ok (some (w.winClass.getD "Unknown", w.title.getD "Unknown")),
            ["which", "which", "hyprctl"])
      else (.ok none, ["which", "which", "hyprctl"])
  else (.ok none, ["which", "which"])

/-- `_get_active_window_wayland` with its `except` clause applied; the
clause names `(subprocess.TimeoutExpired, subprocess.SubprocessError,
FileNotFoundError, Exception)`, and `Exception` catches every exception the
body can raise. -/
def get_active_window_wayland (env : WaylandEnv) :
    Except PyExc (Option (String × String)) × List String :=
  match waylandAttempt env with
  | (.ok r, tr) => (.ok r, tr)
  | (.error _, tr) => (.ok none, tr)

/-- Python truthiness of `os.environ.get(name)`: unset (`None`) and the
empty string are both falsy. -/
def envTruthy : Option String → Bool
  | none => false
  | some s => s != ""

/-- Python `str.lower()` on the ASCII values the detector compares
(`XDG_SESSION_TYPE` is ASCII in practice). -/
def pyLower (s : String) : String := String.mk (s.data.map Char.toLower)

/-- Process environment and tool availability consumed by the tracker. -/
structure SysEnv where
  xdgSessionType : Option String
  display : Option String
  hasXdotool : Bool
  x11 : X11Env
  wayland : WaylandEnv

/-- `_detect_session_type` (tracker.py lines 25-40) with the
launched-programs trace:
`session_type = os.environ.get('XDG_SESSION_TYPE', '').lower()`;
`'wayland'` decides first, else `'x11'` or a truthy `DISPLAY` decides, else
`_command_exists('swaymsg')` and then `_command_exists('xdotool')` are
probed (each probe launches `which`), else `'unknown'`. -/
def detect_session_type (env : SysEnv) : String × List String :=
  let session_type := pyLower (env.xdgSessionType.getD "")
  if session_type = "wayland" then ("wayland", [])
  else if session_type = "x11" ∨ envTruthy env.display = true then ("x11", [])
  else if env.wayland.hasSwaymsg then ("wayland", ["which"])
  else if env.hasXdotool then ("x11", ["which", "which"])
  else ("unknown", ["which", "which"])

/-- `get_active_window` (tracker.py lines 159-168): detect the session type,
then dispatch to the matching backend; any other session type returns `None`
with no further invocation. -/
def get_active_window (env : SysEnv) :
    Except PyExc (Option (String × String)) × List String :=
  let det := detect_session_type env
  if det.1 = "x11" then
    let r := get_active_window_x11 env.x11
    (r.1, det.2 ++ r.2)
  else if det.1 = "wayland" then
    let r := get_active_window_wayland env.wayland
    (r.1, det.2 ++ r.2)
  else (.ok none, det.2)

/- ===== DaemonSupervisor (PID marker, is_running, stop_daemon, start_daemon) ===== -/

/-- decimal digit value used by `int()`: for a digit character, its numeric
value. -/
def digitsToNat (ds : List Char) : Nat :=
  ds.foldl (fun a c => a * 10 + (c.toNat - 48)) 0

/-- Fuel-driven decimal rendering helper; the fuel only bounds the recursion
depth (`n / 10` strictly decreases), so any fuel above `n` gives the exact
decimal digits of `n`. -/
def natReprAux : Nat → Nat → List Char
  | 0, _ => []
  | fuel + 1, n =>
    if n < 10 then [Nat.digitChar n]
    else natReprAux fuel (n / 10) ++ [Nat.digitChar (n % 10)]

/-- decimal rendering of a process id, Python `str(pid)`. -/
def natRepr (n : Nat) : List Char := natReprAux (n + 1) n

/-- Python `int(s)` on text read from the PID marker, as used by
`int(f.read().strip())`: surrounding whitespace is stripped, then an
optional sign followed by decimal digits parses; anything else raises
`ValueError` (`none` here).  CPython's underscore grouping is not
modelled. -/
def pyParseInt (s : String) : Option Int :=
  match pyStrip s.data with
  | [] => none
  | c :: ds =>
    if c = '+' then
      if ds ≠ [] ∧ ds.all Char.isDigit then some (digitsToNat ds) else none
    else if c = '-' then
      if ds ≠ [] ∧ ds.all Char.isDigit then some (-(digitsToNat ds : Int)) else none
    else if (c :: ds).all Char.isDigit then some (digitsToNat (c :: ds)) else none

/-- Filesystem state owned by the daemon layer: the PID marker file
(`~/.local/share/screentime/tracker.pid`); `none` means the file does not
exist, `some s` that it exists with text content `s`. -/
structure DaemonFS where
  marker : Option String
deriving DecidableEq, Repr

/-- `is_running` (tracker.py lines 265-282): no marker file means not
running; otherwise read and parse the pid and probe it with
`os.kill(pid, 0)` (`alive` is the liveness oracle); `ValueError` from
`int()` and `ProcessLookupError` from the probe are caught, the stale
marker is deleted and the result is `False`. -/
def is_running (fs : DaemonFS) (alive : Int → Bool) : Bool × DaemonFS :=
  match fs.marker with
  | none => (false, fs)
  | some s =>
    match pyParseInt s with
    | none => (false, ⟨none⟩)
    | some pid => if alive pid then (true, fs) else (false, ⟨none⟩)

/-- Body of `stop_daemon` (tracker.py lines 231-263) with explicit
exceptions: a missing marker returns `False` at once; `int()` on unparsable
content raises `ValueError`; `os.kill(pid, signal.SIGTERM)` on a dead pid
raises `ProcessLookupError`; on a live pid the grace period, liveness
re-probe and possible SIGKILL all happen before the marker is unlinked and
`True` is returned (the re-probe's own `ProcessLookupError` is caught by
the inner `try`/`pass`, so it does not affect the result). -/
def stop_daemon_body (fs : DaemonFS) (alive : Int → Bool) :
    Except PyExc (Bool × DaemonFS) :=
  match fs.marker with
  | none => .ok (false, fs)
  | some s =>
    match pyParseInt s with
    | none => .error .valueError
    | some pid =>
      if alive pid then .ok (true, ⟨none⟩)
      else .error .processLookup

/-- `stop_daemon` with its
`except (FileNotFoundError, ValueError, ProcessLookupError)` clause
applied: the clause removes the marker if it still exists and returns
`False`.  Both exceptions the body can raise occur only when the marker
exists, so the handler always deletes it. -/
def stop_daemon (fs : DaemonFS) (alive : Int → Bool) : Bool × DaemonFS :=
  match stop_daemon_body fs alive with
  | .ok r => r
  | .error _ => (false, ⟨none⟩)

/-- Process-level outcome of a `start_daemon` run (tracker.py lines
192-229) that passed the `is_running()` check.  `os.fork()` returns the
fresh pid `child1` to the parent, which writes `str(child1)` to the marker
file and returns; the child calls `os.setsid()` and forks again; the second
fork returns the fresh pid `child2` to the intermediate process (pid
`child1`), which immediately runs `os._exit(0)` — it is the pid recorded in
`exited` — while the grandchild (pid `child2`) redirects its standard
descriptors and enters `self.start()`, the accounting loop. -/
structure StartDaemonOutcome where
  marker : Option String
  loopPid : Nat
  exited : List Nat
deriving DecidableEq, Repr

def start_daemon_outcome (child1 child2 : Nat) : StartDaemonOutcome :=
  ⟨some (String.mk (natRepr child1)), child2, [child1]⟩

/- ===== Helper lemmas about the loop ===== -/

theorem spanDurationSum_cons (x : String × String × Nat) (l : List (String × String × Nat)) :
    spanDurationSum (x :: l) = x.2.2 + spanDurationSum l := by
  simp [spanDurationSum]

theorem tick_none (s : TrackerState) (now : Nat) :
    tick s now none = (⟨s.last_window, some now⟩, none) := rfl

theorem tick_snd_no_lastcheck (s : TrackerState) (now : Nat) (wi : String × String)
    (hc : s.last_check = none) : (tick s now (some wi)).2 = none := by
  simp [tick, hc]

theorem tick_snd_diff (s : TrackerState) (now : Nat) (wi : String × String) (t : Nat)
    (hc : s.last_check = some t) (hw : ¬ s.last_window = some wi) :
    (tick s now (some wi)).2 = none := by
  simp [tick, hc, hw]

theorem tick_snd_record (s : TrackerState) (now : Nat) (wi : String × String) (t : Nat)
    (hc : s.last_check = some t) (hw : s.last_window = some wi) (ht : t ≠ 0) :
    (tick s now (some wi)).2 =
      if 0 < now - t then some (wi.1, wi.2, now - t) else none := by
  simp [tick, hc, hw, ht]

theorem tick_same (w : String × String) (t now : Nat) (ht : t ≠ 0) (hlt : t < now) :
    tick ⟨some w, some t⟩ now (some w) = (⟨some w, some now⟩, some (w.1, w.2, now - t)) := by
  have hd : 0 < now - t := Nat.sub_pos_of_lt hlt
  simp [tick, ht, hd]

theorem runTicks_same_schedule (w : String × String) (i : Nat) (hi : 0 < i) :
    ∀ (n t : Nat), 0 < t →
      spanDurationSum (runTicks ⟨some w, some t⟩ (ticksFrom w (t + i) i n)).2 = n * i := by
  intro n
  induction n with
  | zero => intro t _; simp [ticksFrom, runTicks, spanDurationSum]
  | succ m ih =>
    intro t ht
    have hne : t ≠ 0 := by omega
    have hstep := tick_same w t (t + i) hne (by omega)
    have hrest := ih (t + i) (by omega)
    have hsub : t + i - t = i := by omega
    simp only [ticksFrom, runTicks, hstep, hsub, Option.toList_some, List.singleton_append]
    rw [spanDurationSum_cons, hrest]
    ring

/- ===== Claim theorems: accounting loop ===== -/

/-- C2: on a tick whose poll returns no sample, `last_window` is left
unchanged, `last_check` is set to the tick's timestamp, and nothing is
recorded; consequently, after a successful tick reporting `w` at `t0` and a
failed tick at `t1`, a tick at `t2` reporting `w` again records exactly one
span of duration `t2 - t1` (measured from the failed tick, not from before
the gap). -/
theorem claim_C2_failed_tick_frame (s : TrackerState) (now : Nat)
    (s0 : TrackerState) (w : String × String) (t0 t1 t2 : Nat)
    (ht1 : t1 ≠ 0) (h12 : t1 < t2) :
    tick s now none = (⟨s.last_window, some now⟩, none) ∧
    ((tick (tick (tick s0 t0 (some w)).1 t1 none).1 t2 (some w)).2
        = some (w.1, w.2, t2 - t1) ∧
      (tick (tick s0 t0 (some w)).1 t1 none).1.last_window = some w ∧
      (tick (tick s0 t0 (some w)).1 t1 none).1.last_check = some t1) := by
  have h1 : (tick s0 t0 (some w)).1 = ⟨some w, some t0⟩ := rfl
  have h2 : (tick (⟨some w, some t0⟩ : TrackerState) t1 none).1 = ⟨some w, some t1⟩ := rfl
  refine ⟨tick_none s now, ?_, ?_, ?_⟩
  · rw [h1, h2, tick_same w t1 t2 ht1 h12]
  · rw [h1, h2]
  · rw [h1, h2]

/-- C2 witness: the spec's own scenario (interval 5): sample `(Firefox, Page1)`
at t=5, failed tick at t=10, same sample at t=15 records the span
`(Firefox, Page1, 5)`. -/
theorem claim_C2_failed_tick_frame_witness :
    (tick (tick (tick ⟨none, none⟩ 5 (some ("Firefox", "Page1"))).1 10 none).1 15
        (some ("Firefox", "Page1"))).2 = some ("Firefox", "Page1", 5) := by
  have h := claim_C2_failed_tick_frame ⟨none, none⟩ 0 ⟨none, none⟩
    ("Firefox", "Page1") 5 10 15 (by decide) (by decide)
  exact h.2.1

/-- C3: on any tick (whose stored `last_check` is not the degenerate
timestamp 0, which Python truthiness would reject), `record_activity` is
invoked iff the sample is present, equals the stored `last_window`,
`last_check` is set, and the whole-second delta `now - last_check` is
strictly positive; when invoked, the recorded duration is exactly that
delta.  At most one span per tick is inherent in the `Option` result of
`tick`. -/
theorem claim_C3_record_iff (s : TrackerState) (now : Nat)
    (sample : Option (String × String)) (hlc : s.last_check ≠ some 0) :
    (∀ r, (tick s now sample).2 = some r →
      ∃ w t, sample = some w ∧ s.last_window = some w ∧ s.last_check = some t ∧
        0 < now - t ∧ r = (w.1, w.2, now - t)) ∧
    (∀ w t, sample = some w → s.last_window = some w → s.last_check = some t →
      0 < now - t → (tick s now sample).2 = some (w.1, w.2, now - t)) := by
  constructor
  · intro r hr
    cases sample with
    | none => rw [tick_none] at hr; exact Option.noConfusion hr
    | some wi =>
      cases hc : s.last_check with
      | none => rw [tick_snd_no_lastcheck s now wi hc] at hr; exact Option.noConfusion hr
      | some t =>
        by_cases hw : s.last_window = some wi
        · have ht : t ≠ 0 := by intro h0; rw [h0] at hc; exact hlc hc
          rw [tick_snd_record s now wi t hc hw ht] at hr
          by_cases hd : 0 < now - t
          · rw [if_pos hd] at hr
            exact ⟨wi, t, rfl, hw, rfl, hd, (Option.some.inj hr).symm⟩
          · rw [if_neg hd] at hr; exact Option.noConfusion hr
        · rw [tick_snd_diff s now wi t hc hw] at hr; exact Option.noConfusion hr
  · intro w t hsamp hw hc hd
    subst hsamp
    have ht : t ≠ 0 := by intro h0; rw [h0] at hc; exact hlc hc
    rw [tick_snd_record s now w t hc hw ht, if_pos hd]

/-- C3 witness: state `(some (a,b), last_check 5)`, tick at 9 with the same
sample records `(a, b, 4)`. -/
theorem claim_C3_record_iff_witness :
    (tick ⟨some ("a", "b"), some 5⟩ 9 (some ("a", "b"))).2 = some ("a", "b", 4) := by
  exact (claim_C3_record_iff ⟨some ("a", "b"), some 5⟩ 9 (some ("a", "b"))
    (by decide)).2 ("a", "b") 5 rfl rfl rfl (by decide)

/-- C6: starting from a fresh loop state, `N ≥ 2` consecutive ticks that all
report the same sample at timestamps spaced exactly `interval` whole seconds
apart (none failing) hand spans totalling `(N-1) * interval` seconds to the
recorder.  (`0 < t0` reflects that real `time.time()` timestamps are
positive; the Python truthiness guard on `last_check` would ignore a
timestamp of exactly 0.) -/
theorem claim_C6_total_duration (w : String × String) (t0 interval N : Nat)
    (hN : 2 ≤ N) (ht0 : 0 < t0) (hi : 0 < interval) :
    spanDurationSum (runTicks ⟨none, none⟩ (ticksFrom w t0 interval N)).2
      = (N - 1) * interval := by
  obtain ⟨m, rfl⟩ : ∃ m, N = m + 1 := ⟨N - 1, (Nat.succ_pred_eq_of_pos (by omega)).symm⟩
  have h1 : tick ⟨none, none⟩ t0 (some w) = (⟨some w, some t0⟩, none) := rfl
  have h2 := runTicks_same_schedule w interval hi m t0 ht0
  simp only [ticksFrom, runTicks, h1, Option.toList_none, List.nil_append]
  rw [h2]
  simp

/-- C6 witness: three ticks of `(Firefox, Page1)` at times 10, 15, 20
(interval 5) record a total of `(3-1)*5 = 10` seconds. -/
theorem claim_C6_total_duration_witness :
    spanDurationSum (runTicks ⟨none, none⟩
      (ticksFrom ("Firefox", "Page1") 10 5 3)).2 = 10 := by
  have h := claim_C6_total_duration ("Firefox", "Page1") 10 5 3
    (by decide) (by decide) (by decide)
  simpa using h

/- ===== Helper lemmas: Python string primitives ===== -/

theorem charNotMemAppend (a : Char) (l1 l2 : List Char) (h1 : a ∉ l1) (h2 : a ∉ l2) :
    a ∉ l1 ++ l2 := by
  simp [List.mem_append, h1, h2]

theorem charNotMemCons (a b : Char) (l : List Char) (hne : a ≠ b) (h : a ∉ l) :
    a ∉ b :: l := by
  simp [List.mem_cons, hne, h]

theorem pySplit_ne_nil (sep : Char) : ∀ l : List Char, pySplit sep l ≠ []
  | [] => by simp [pySplit]
  | c :: rest => by
    by_cases hc : c = sep
    · simp [pySplit, hc]
    · simp only [pySplit, if_neg hc]
      rcases h : pySplit sep rest with _ | ⟨hd, tl⟩
      · simp
      · simp

theorem pySplit_no_sep (sep : Char) : ∀ l : List Char, sep ∉ l → pySplit sep l = [l]
  | [], _ => rfl
  | c :: rest, h => by
    have hc : ¬ c = sep := by
      intro e
      exact h (by rw [e]; exact List.mem_cons_self sep rest)
    have ih := pySplit_no_sep sep rest (fun m => h (List.mem_cons_of_mem c m))
    simp [pySplit, hc, ih]

theorem pySplit_append (sep : Char) : ∀ (xs ys : List Char), sep ∉ xs →
    pySplit sep (xs ++ sep :: ys) = xs :: pySplit sep ys
  | [], ys, _ => by simp [pySplit]
  | c :: xs, ys, h => by
    have hc : ¬ c = sep := by
      intro e
      exact h (by rw [e]; exact List.mem_cons_self sep xs)
    have ih := pySplit_append sep xs ys (fun m => h (List.mem_cons_of_mem c m))
    simp [pySplit, hc, ih]

theorem dropWhile_cons_false (p : Char → Bool) (a : Char) (l : List Char) (ha : p a = false) :
    List.dropWhile p (a :: l) = a :: l := by
  simp [List.dropWhile_cons, ha]

theorem dropWhile_all_false (p : Char → Bool) :
    ∀ l : List Char, (∀ x ∈ l, p x = false) → List.dropWhile p l = l
  | [], _ => rfl
  | a :: l, h => by
    have ha := h a (List.mem_cons_self a l)
    simp [List.dropWhile_cons, ha]

theorem stripWith_all_false (p : Char → Bool) (l : List Char)
    (h : ∀ x ∈ l, p x = false) : stripWith p l = l := by
  simp only [stripWith]
  rw [dropWhile_all_false p l h,
    dropWhile_all_false p l.reverse (fun x hx => h x (List.mem_reverse.mp hx)),
    List.reverse_reverse]

theorem stripWith_cons_pos (p : Char → Bool) (a : Char) (l : List Char) (ha : p a = true) :
    stripWith p (a :: l) = stripWith p l := by
  simp [stripWith, List.dropWhile_cons, ha]

theorem stripWith_front_back (p : Char → Bool) (a b : Char) (mid : List Char)
    (ha : p a = false) (hb : p b = false) :
    stripWith p (a :: mid ++ [b]) = a :: mid ++ [b] := by
  simp only [stripWith]
  rw [show (a :: mid ++ [b] : List Char) = a :: (mid ++ [b]) from rfl,
    dropWhile_cons_false p a (mid ++ [b]) ha]
  have h2 : (a :: (mid ++ [b])).reverse = b :: (mid.reverse ++ [a]) := by simp
  rw [h2, dropWhile_cons_false p b (mid.reverse ++ [a]) hb]
  simp

theorem stripQuotes_wrap (c : List Char) (hq : '"' ∉ c) :
    stripQuotes ('"' :: c ++ ['"']) = c := by
  have hall : ∀ x ∈ c, (x == '"') = false := by
    intro x hx
    have hne : x ≠ '"' := fun e => hq (e ▸ hx)
    simp [hne]
  simp only [stripQuotes]
  rw [show ('"' :: c ++ ['"'] : List Char) = '"' :: (c ++ ['"']) from rfl,
    stripWith_cons_pos _ _ _ (by decide)]
  cases c with
  | nil => decide
  | cons d ds =>
    have hd : (d == '"') = false := hall d (List.mem_cons_self d ds)
    simp only [stripWith, List.cons_append]
    rw [dropWhile_cons_false _ d _ hd]
    have h2 : (d :: (ds ++ ['"'])).reverse = '"' :: (ds.reverse ++ [d]) := by simp
    rw [h2]
    rw [show List.dropWhile (fun c => c == '"') ('"' :: (ds.reverse ++ [d]))
        = List.dropWhile (fun c => c == '"') (ds.reverse ++ [d]) from by
      simp [List.dropWhile_cons]]
    rw [dropWhile_all_false _ (ds.reverse ++ [d]) (by
      intro x hx
      rcases List.mem_append.mp hx with h | h
      · exact hall x (List.mem_cons_of_mem d (List.mem_reverse.mp h))
      · rw [List.mem_singleton.mp h]; exact hd)]
    simp

/- ===== Claim theorem: WM_CLASS parsing (C5) ===== -/

/-- C5: for `xprop` class-property output of the canonical form
`WM_CLASS(STRING) = "instance", "class"` the application id resolves to the
second comma-separated field `class` (stripped of whitespace and quotes); for
output containing `=` with only one quoted field it falls back to that field;
for output with no `=` it falls back to the sentinel `Unknown` (a failed
query also yields `Unknown` in `_get_active_window_x11`, see the wayland/x11
backend theorems). -/
theorem claim_C5_wmclass_parsing :
    (∀ i c : List Char, '=' ∉ i → ',' ∉ i → '=' ∉ c → ',' ∉ c → '"' ∉ c →
      parseWMClassApp ("WM_CLASS(STRING) = \"".data ++ i ++ "\", \"".data ++ c ++ ['"']) = c) ∧
    (∀ f : List Char, '=' ∉ f → ',' ∉ f → '"' ∉ f →
      parseWMClassApp ("WM_CLASS(STRING) = \"".data ++ f ++ ['"']) = f) ∧
    (∀ out : List Char, '=' ∉ out → parseWMClassApp out = "Unknown".data) := by
  refine ⟨?_, ?_, ?_⟩
  · intro i c hi1 hi2 hc1 hc2 hq
    have hsplit1 : "WM_CLASS(STRING) = \"".data ++ i ++ "\", \"".data ++ c ++ ['"']
        = "WM_CLASS(STRING) ".data
            ++ '=' :: (' ' :: '"' :: (i ++ '"' :: ',' :: ' ' :: '"' :: (c ++ ['"']))) := by
      have hA : "WM_CLASS(STRING) = \"".data
          = "WM_CLASS(STRING) ".data ++ ['=', ' ', '"'] := by decide
      have hB : "\", \"".data = ['"', ',', ' ', '"'] := by decide
      rw [hA, hB]
      simp
    have hmem : '=' ∈ "WM_CLASS(STRING) ".data
        ++ '=' :: (' ' :: '"' :: (i ++ '"' :: ',' :: ' ' :: '"' :: (c ++ ['"']))) := by
      simp
    have hrest : '=' ∉ ' ' :: '"' :: (i ++ '"' :: ',' :: ' ' :: '"' :: (c ++ ['"'])) := by
      apply charNotMemCons _ _ _ (by decide)
      apply charNotMemCons _ _ _ (by decide)
      apply charNotMemAppend _ _ _ hi1
      apply charNotMemCons _ _ _ (by decide)
      apply charNotMemCons _ _ _ (by decide)
      apply charNotMemCons _ _ _ (by decide)
      apply charNotMemCons _ _ _ (by decide)
      apply charNotMemAppend _ _ _ hc1
      decide
    have hpre : '=' ∉ "WM_CLASS(STRING) ".data := by decide
    rw [hsplit1]
    simp only [parseWMClassApp]
    rw [if_pos hmem, pySplit_append '=' _ _ hpre, pySplit_no_sep '=' _ hrest]
    simp only [List.getD_cons_succ, List.getD_cons_zero]
    have hstrip1 : pyStrip (' ' :: '"' :: (i ++ '"' :: ',' :: ' ' :: '"' :: (c ++ ['"'])))
        = '"' :: (i ++ '"' :: ',' :: ' ' :: '"' :: (c ++ ['"'])) := by
      simp only [pyStrip]
      rw [stripWith_cons_pos _ _ _ (by decide)]
      have hsh : i ++ '"' :: ',' :: ' ' :: '"' :: (c ++ ['"'])
          = (i ++ '"' :: ',' :: ' ' :: '"' :: c) ++ ['"'] := by simp
      rw [hsh]
      exact stripWith_front_back isPySpace '"' '"' _ (by decide) (by decide)
    rw [hstrip1]
    have heq : '"' :: (i ++ '"' :: ',' :: ' ' :: '"' :: (c ++ ['"']))
        = ('"' :: (i ++ ['"'])) ++ ',' :: (' ' :: '"' :: (c ++ ['"'])) := by simp
    have hX : ',' ∉ '"' :: (i ++ ['"']) := by
      apply charNotMemCons _ _ _ (by decide)
      apply charNotMemAppend _ _ _ hi2
      decide
    have hY : ',' ∉ ' ' :: '"' :: (c ++ ['"']) := by
      apply charNotMemCons _ _ _ (by decide)
      apply charNotMemCons _ _ _ (by decide)
      apply charNotMemAppend _ _ _ hc2
      decide
    rw [heq, pySplit_append ',' _ _ hX, pySplit_no_sep ',' _ hY]
    simp only [List.length_cons, List.length_nil, List.getD_cons_succ, List.getD_cons_zero]
    rw [if_pos (by omega)]
    have hstrip2 : pyStrip (' ' :: '"' :: (c ++ ['"'])) = '"' :: (c ++ ['"']) := by
      simp only [pyStrip]
      rw [stripWith_cons_pos _ _ _ (by decide)]
      exact stripWith_front_back isPySpace '"' '"' c (by decide) (by decide)
    rw [hstrip2]
    exact stripQuotes_wrap c hq
  · intro f hf1 hf2 hq
    have hsplit1 : "WM_CLASS(STRING) = \"".data ++ f ++ ['"']
        = "WM_CLASS(STRING) ".data ++ '=' :: (' ' :: '"' :: (f ++ ['"'])) := by
      have hA : "WM_CLASS(STRING) = \"".data
          = "WM_CLASS(STRING) ".data ++ ['=', ' ', '"'] := by decide
      rw [hA]
      simp
    have hmem : '=' ∈ "WM_CLASS(STRING) ".data ++ '=' :: (' ' :: '"' :: (f ++ ['"'])) := by
      simp
    have hrest : '=' ∉ ' ' :: '"' :: (f ++ ['"']) := by
      apply charNotMemCons _ _ _ (by decide)
      apply charNotMemCons _ _ _ (by decide)
      apply charNotMemAppend _ _ _ hf1
      decide
    have hpre : '=' ∉ "WM_CLASS(STRING) ".data := by decide
    rw [hsplit1]
    simp only [parseWMClassApp]
    rw [if_pos hmem, pySplit_append '=' _ _ hpre, pySplit_no_sep '=' _ hrest]
    simp only [List.getD_cons_succ, List.getD_cons_zero]
    have hstrip1 : pyStrip (' ' :: '"' :: (f ++ ['"'])) = '"' :: (f ++ ['"']) := by
      simp only [pyStrip]
      rw [stripWith_cons_pos _ _ _ (by decide)]
      exact stripWith_front_back isPySpace '"' '"' f (by decide) (by decide)
    rw [hstrip1, pySplit_no_sep ',' _ (by
      apply charNotMemCons _ _ _ (by decide)
      apply charNotMemAppend _ _ _ hf2
      decide)]
    simp only [List.length_cons, List.length_nil, List.getD_cons_zero]
    rw [if_neg (by omega)]
    have hstrip3 : pyStrip ('"' :: (f ++ ['"'])) = '"' :: (f ++ ['"']) := by
      simp only [pyStrip]
      exact stripWith_front_back isPySpace '"' '"' f (by decide) (by decide)
    rw [hstrip3]
    exact stripQuotes_wrap f hq
  · intro out hout
    simp only [parseWMClassApp]
    rw [if_neg hout]

/-- C5 witness: the spec's literal example resolves to `class`, the
one-field form resolves to that field, and an output without `=` resolves to
`Unknown`. -/
theorem claim_C5_wmclass_parsing_witness :
    parseWMClassApp ("WM_CLASS(STRING) = \"instance\", \"class\"").data = "class".data ∧
    parseWMClassApp ("WM_CLASS(STRING) = \"single\"").data = "single".data ∧
    parseWMClassApp ("no class property found").data = "Unknown".data := by
  refine ⟨?_, ?_, ?_⟩
  · have h := claim_C5_wmclass_parsing.1 ("instance").data ("class").data
      (by decide) (by decide) (by decide) (by decide) (by decide)
    have harg : ("WM_CLASS(STRING) = \"".data ++ ("instance").data
        ++ "\", \"".data ++ ("class").data ++ ['"'])
        = ("WM_CLASS(STRING) = \"instance\", \"class\"").data := by decide
    rw [harg] at h
    exact h
  · have h := claim_C5_wmclass_parsing.2.1 ("single").data (by decide) (by decide) (by decide)
    have harg : ("WM_CLASS(STRING) = \"".data ++ ("single").data ++ ['"'])
        = ("WM_CLASS(STRING) = \"single\"").data := by decide
    rw [harg] at h
    exact h
  · exact claim_C5_wmclass_parsing.2.2 ("no class property found").data (by decide)

/- ===== Helper lemmas: backends ===== -/

theorem x11Attempt_error_caught (ex : X11Env) (e : PyExc) (tr : List String)
    (h : x11Attempt ex = (.error e, tr)) : x11Caught e = true := by
  obtain ⟨g, w, x⟩ := ex
  cases g <;> cases w <;> cases x <;>
    simp only [x11Attempt] at h <;>
    repeat split at h
  all_goals first
    | (injection h with h1 h2; injection h1 with h3; subst h3; rfl)
    | (injection h with h1 h2; injection h1)

theorem x11_total (ex : X11Env) : ∃ r, (get_active_window_x11 ex).1 = .ok r := by
  rcases hx : x11Attempt ex with ⟨res, tr⟩
  cases res with
  | ok r => exact ⟨r, by simp [get_active_window_x11, hx]⟩
  | error e =>
    have hc := x11Attempt_error_caught ex e tr hx
    exact ⟨none, by simp [get_active_window_x11, hx, hc]⟩

theorem wayland_total (ew : WaylandEnv) : ∃ r, (get_active_window_wayland ew).1 = .ok r := by
  rcases hx : waylandAttempt ew with ⟨res, tr⟩
  cases res with
  | ok r => exact ⟨r, by simp [get_active_window_wayland, hx]⟩
  | error e => exact ⟨none, by simp [get_active_window_wayland, hx]⟩

theorem wayland_catch (ew : WaylandEnv) (e : PyExc) (tr : List String)
    (h : waylandAttempt ew = (.error e, tr)) :
    (get_active_window_wayland ew).1 = .ok none := by
  simp [get_active_window_wayland, h]

theorem x11_none_of_getactive_missing (ex : X11Env) (hg : ex.getactivewindow = .missing) :
    (get_active_window_x11 ex).1 = .ok none := by
  simp [get_active_window_x11, x11Attempt, x11Caught, hg]

theorem x11_none_of_getactive_timeout (ex : X11Env) (hg : ex.getactivewindow = .timeout) :
    (get_active_window_x11 ex).1 = .ok none := by
  simp [get_active_window_x11, x11Attempt, x11Caught, hg]

theorem x11_none_of_getactive_fail (ex : X11Env) (rc : Int) (out : String)
    (hg : ex.getactivewindow = .done rc out) (hrc : rc ≠ 0) :
    (get_active_window_x11 ex).1 = .ok none := by
  simp [get_active_window_x11, x11Attempt, hg, hrc]

theorem x11_none_of_getwindowname_exc (ex : X11Env)
    (hw : ex.getwindowname = .missing ∨ ex.getwindowname = .timeout) :
    (get_active_window_x11 ex).1 = .ok none := by
  rcases hg : ex.getactivewindow with _ | _ | ⟨rc, out⟩
  · exact x11_none_of_getactive_missing ex hg
  · exact x11_none_of_getactive_timeout ex hg
  · by_cases hrc : rc ≠ 0
    · exact x11_none_of_getactive_fail ex rc out hg hrc
    · rcases hw with hw | hw <;>
        simp [get_active_window_x11, x11Attempt, x11Caught, hg, hrc, hw]

theorem x11_none_of_xprop_exc (ex : X11Env)
    (hx : ex.xprop = .missing ∨ ex.xprop = .timeout) :
    (get_active_window_x11 ex).1 = .ok none := by
  rcases hg : ex.getactivewindow with _ | _ | ⟨rc, out⟩
  · exact x11_none_of_getactive_missing ex hg
  · exact x11_none_of_getactive_timeout ex hg
  · by_cases hrc : rc ≠ 0
    · exact x11_none_of_getactive_fail ex rc out hg hrc
    · rcases hw : ex.getwindowname with _ | _ | ⟨rc2, out2⟩
      · exact x11_none_of_getwindowname_exc ex (Or.inl hw)
      · exact x11_none_of_getwindowname_exc ex (Or.inr hw)
      · rcases hx with hx | hx <;>
          simp [get_active_window_x11, x11Attempt, x11Caught, hg, hrc, hw, hx]

theorem x11_title_unknown (ex : X11Env) (rc : Int) (out : String) (rc2 : Int) (out2 : String)
    (rc3 : Int) (out3 : String)
    (hg : ex.getactivewindow = .done rc out) (hrc : rc = 0)
    (hw : ex.getwindowname = .done rc2 out2) (hrc2 : rc2 ≠ 0)
    (hx : ex.xprop = .done rc3 out3) :
    ∃ app, (get_active_window_x11 ex).1 = .ok (some (app, "Unknown")) := by
  by_cases hrc3 : rc3 = 0
  · exact ⟨String.mk (parseWMClassApp (pyStrip out3.data)),
      by simp [get_active_window_x11, x11Attempt, hg, hrc, hw, hrc2, hx, hrc3]⟩
  · exact ⟨"Unknown",
      by simp [get_active_window_x11, x11Attempt, hg, hrc, hw, hrc2, hx, hrc3]⟩

theorem x11_class_unknown (ex : X11Env) (rc : Int) (out : String) (rc2 : Int) (out2 : String)
    (rc3 : Int) (out3 : String)
    (hg : ex.getactivewindow = .done rc out) (hrc : rc = 0)
    (hw : ex.getwindowname = .done rc2 out2)
    (hx : ex.xprop = .done rc3 out3) (hrc3 : rc3 ≠ 0) :
    ∃ title, (get_active_window_x11 ex).1 = .ok (some ("Unknown", title)) := by
  by_cases hrc2 : rc2 = 0
  · exact ⟨String.mk (pyStrip out2.data),
      by simp [get_active_window_x11, x11Attempt, hg, hrc, hw, hrc2, hx, hrc3]⟩
  · exact ⟨"Unknown",
      by simp [get_active_window_x11, x11Attempt, hg, hrc, hw, hrc2, hx, hrc3]⟩

theorem wayland_sway_fail_none (ew : WaylandEnv) (rc : Int) (out : JsonOutcome SwayNode)
    (hs : ew.hasSwaymsg = true) (hq : ew.swaymsg = .done rc out) (hrc : rc ≠ 0) :
    (get_active_window_wayland ew).1 = .ok none := by
  simp [get_active_window_wayland, waylandAttempt, hs, hq, hrc]

theorem wayland_sway_nofocus_none (ew : WaylandEnv) (rc : Int) (tree : SwayNode)
    (hs : ew.hasSwaymsg = true) (hq : ew.swaymsg = .done rc (.obj tree))
    (hfoc : findFocusedWindow tree = none) :
    (get_active_window_wayland ew).1 = .ok none := by
  by_cases hrc : rc = 0 <;>
    simp [get_active_window_wayland, waylandAttempt, hs, hq, hfoc, hrc]

theorem wayland_trace_sway (ew : WaylandEnv) (hs : ew.hasSwaymsg = true) :
    (get_active_window_wayland ew).2 = ["which", "swaymsg"] := by
  rcases hq : ew.swaymsg with _ | _ | ⟨rc, out⟩
  · simp [get_active_window_wayland, waylandAttempt, hs, hq]
  · simp [get_active_window_wayland, waylandAttempt, hs, hq]
  · by_cases hrc : rc = 0
    · cases out with
      | malformed => simp [get_active_window_wayland, waylandAttempt, hs, hq, hrc]
      | notObject => simp [get_active_window_wayland, waylandAttempt, hs, hq, hrc]
      | obj tree =>
        cases hf : findFocusedWindow tree <;>
          simp [get_active_window_wayland, waylandAttempt, hs, hq, hrc, hf]
    · simp [get_active_window_wayland, waylandAttempt, hs, hq, hrc]

/- ===== Claim theorems: backends ===== -/

/-- C4 counterexample: the claim says every tool behaviour involving a
non-zero exit status yields no sample, but when `xdotool getactivewindow`
succeeds, `xdotool getwindowname` exits with status 1, and `xprop` succeeds,
`_get_active_window_x11` returns a sample with an `Unknown` title rather
than `None`. -/
theorem claim_C4_counterexample :
    (get_active_window_x11
      ⟨.done 0 "123", .done 1 "", .done 0 " WM_CLASS(STRING) = \"Navigator\", \"firefox\" "⟩).1
      = .ok (some ("firefox", "Unknown")) ∧
    (some ("firefox", "Unknown") : Option (String × String)) ≠ none := by
  exact ⟨rfl, by decide⟩

/-- C4 (amended): both backend polls are total — no exception escapes the
component for any behaviour of the external tools — and every
exception-level failure (missing binary, timeout), as well as a failed
initial window-id query and every failing Wayland query, yields no sample;
however a non-zero exit of the X11 title or class sub-query yields a sample
with `Unknown` substituted for the affected field instead of no sample. -/
theorem claim_C4_total_no_escape (ex : X11Env) (ew : WaylandEnv) :
    (∃ r, (get_active_window_x11 ex).1 = .ok r) ∧
    (∃ r, (get_active_window_wayland ew).1 = .ok r) ∧
    (ex.getactivewindow = .missing → (get_active_window_x11 ex).1 = .ok none) ∧
    (ex.getactivewindow = .timeout → (get_active_window_x11 ex).1 = .ok none) ∧
    (∀ rc out, ex.getactivewindow = .done rc out → rc ≠ 0 →
      (get_active_window_x11 ex).1 = .ok none) ∧
    (ex.getwindowname = .missing ∨ ex.getwindowname = .timeout →
      (get_active_window_x11 ex).1 = .ok none) ∧
    (ex.xprop = .missing ∨ ex.xprop = .timeout →
      (get_active_window_x11 ex).1 = .ok none) ∧
    (∀ e tr, waylandAttempt ew = (.error e, tr) →
      (get_active_window_wayland ew).1 = .ok none) ∧
    (∀ rc out rc2 out2 rc3 out3,
      ex.getactivewindow = .done rc out → rc = 0 →
      ex.getwindowname = .done rc2 out2 → rc2 ≠ 0 →
      ex.xprop = .done rc3 out3 →
      ∃ app, (get_active_window_x11 ex).1 = .ok (some (app, "Unknown"))) ∧
    (∀ rc out rc2 out2 rc3 out3,
      ex.getactivewindow = .done rc out → rc = 0 →
      ex.getwindowname = .done rc2 out2 →
      ex.xprop = .done rc3 out3 → rc3 ≠ 0 →
      ∃ title, (get_active_window_x11 ex).1 = .ok (some ("Unknown", title))) := by
  refine ⟨x11_total ex, wayland_total ew,
    x11_none_of_getactive_missing ex, x11_none_of_getactive_timeout ex,
    fun rc out hg hrc => x11_none_of_getactive_fail ex rc out hg hrc,
    x11_none_of_getwindowname_exc ex, x11_none_of_xprop_exc ex,
    fun e tr h => wayland_catch ew e tr h,
    fun rc out rc2 out2 rc3 out3 hg hrc hw hrc2 hx =>
      x11_title_unknown ex rc out rc2 out2 rc3 out3 hg hrc hw hrc2 hx,
    fun rc out rc2 out2 rc3 out3 hg hrc hw hx hrc3 =>
      x11_class_unknown ex rc out rc2 out2 rc3 out3 hg hrc hw hx hrc3⟩

/-- C4 witness: a missing `xdotool` binary yields no sample from the X11
poll; a timed-out `swaymsg` yields no sample from the Wayland poll; a title
query exiting non-zero yields a sample with an `Unknown` title. -/
theorem claim_C4_total_no_escape_witness :
    (get_active_window_x11 ⟨.missing, .missing, .missing⟩).1 = .ok none ∧
    (get_active_window_wayland ⟨true, false, .timeout, .missing⟩).1 = .ok none ∧
    ∃ app, (get_active_window_x11 ⟨.done 0 "1", .done 1 "x", .done 0 "y"⟩).1
      = .ok (some (app, "Unknown")) := by
  have h1 := claim_C4_total_no_escape ⟨.missing, .missing, .missing⟩
    ⟨true, false, .timeout, .missing⟩
  have h2 := claim_C4_total_no_escape ⟨.done 0 "1", .done 1 "x", .done 0 "y"⟩
    ⟨true, false, .timeout, .missing⟩
  refine ⟨h1.2.2.1 rfl, ?_, ?_⟩
  · exact h1.2.2.2.2.2.2.2.1 .timeoutExpired ["which", "swaymsg"] rfl
  · exact h2.2.2.2.2.2.2.2.2.1 0 "1" 1 "x" 0 "y" rfl rfl rfl (by decide) rfl

/-- C7: session-type classification is a pure function of the environment
and tool availability (determinism is inherent in the embedding), and
follows the claimed priority: the lower-cased `XDG_SESSION_TYPE` value
`wayland` decides first, then `x11`, then a truthy `DISPLAY` implies x11,
then the probe for `swaymsg` (wayland), then the probe for `xdotool` (x11),
and otherwise the result is unknown. -/
theorem claim_C7_detect_priority (env : SysEnv) :
    ((pyLower (env.xdgSessionType.getD "") = "wayland" →
      (detect_session_type env).1 = "wayland") ∧
    (pyLower (env.xdgSessionType.getD "") = "x11" →
      (detect_session_type env).1 = "x11") ∧
    (pyLower (env.xdgSessionType.getD "") ≠ "wayland" →
      pyLower (env.xdgSessionType.getD "") ≠ "x11" →
      envTruthy env.display = true →
      (detect_session_type env).1 = "x11") ∧
    (pyLower (env.xdgSessionType.getD "") ≠ "wayland" →
      pyLower (env.xdgSessionType.getD "") ≠ "x11" →
      envTruthy env.display = false →
      env.wayland.hasSwaymsg = true →
      (detect_session_type env).1 = "wayland") ∧
    (pyLower (env.xdgSessionType.getD "") ≠ "wayland" →
      pyLower (env.xdgSessionType.getD "") ≠ "x11" →
      envTruthy env.display = false →
      env.wayland.hasSwaymsg = false →
      env.hasXdotool = true →
      (detect_session_type env).1 = "x11") ∧
    (pyLower (env.xdgSessionType.getD "") ≠ "wayland" →
      pyLower (env.xdgSessionType.getD "") ≠ "x11" →
      envTruthy env.display = false →
      env.wayland.hasSwaymsg = false →
      env.hasXdotool = false →
      (detect_session_type env).1 = "unknown")) := by
  refine ⟨?_, ?_, ?_, ?_, ?_, ?_⟩
  · intro h; simp [detect_session_type, h]
  · intro h; simp [detect_session_type, h]
  · intro h1 h2 h3; simp [detect_session_type, h1, h2, h3]
  · intro h1 h2 h3 h4; simp [detect_session_type, h1, h2, h3, h4]
  · intro h1 h2 h3 h4 h5; simp [detect_session_type, h1, h2, h3, h4, h5]
  · intro h1 h2 h3 h4 h5; simp [detect_session_type, h1, h2, h3, h4, h5]

/-- C7 witness: `XDG_SESSION_TYPE=Wayland` (any case) decides wayland even
with `DISPLAY` set; `XDG_SESSION_TYPE=tty` with no `DISPLAY`, no `swaymsg`
and an available `xdotool` falls through to x11. -/
theorem claim_C7_detect_priority_witness :
    (detect_session_type ⟨some "Wayland", some ":0", true,
      ⟨.missing, .missing, .missing⟩, ⟨false, false, .missing, .missing⟩⟩).1 = "wayland" ∧
    (detect_session_type ⟨some "tty", none, true,
      ⟨.missing, .missing, .missing⟩, ⟨false, false, .missing, .missing⟩⟩).1 = "x11" := by
  constructor
  · exact (claim_C7_detect_priority _).1 (by decide)
  · exact (claim_C7_detect_priority _).2.2.2.2.1 (by decide) (by decide) rfl rfl rfl

/-- environment with no session hints and no tools on PATH, classified
`unknown` by `_detect_session_type`. -/
def unknownSessionEnv : SysEnv :=
  ⟨none, none, false, ⟨.missing, .missing, .missing⟩, ⟨false, false, .missing, .missing⟩⟩

/-- C9 counterexample: in an environment classified `unknown`,
`get_active_window` does return no sample, but producing that result
launches two external programs (`which swaymsg` and `which xdotool` inside
`_detect_session_type`), not zero. -/
theorem claim_C9_counterexample :
    (detect_session_type unknownSessionEnv).1 = "unknown" ∧
    (get_active_window unknownSessionEnv).1 = .ok none ∧
    (get_active_window unknownSessionEnv).2 = ["which", "which"] ∧
    (get_active_window unknownSessionEnv).2 ≠ [] := by
  refine ⟨rfl, rfl, rfl, by decide⟩

/-- C9 (amended): whenever the session kind is classified `unknown`, the
poll returns no sample and the backend dispatch performs no
external-program invocation beyond the probes already made during
session-type detection. -/
theorem claim_C9_unknown_dispatch (env : SysEnv)
    (h : (detect_session_type env).1 = "unknown") :
    (get_active_window env).1 = .ok none ∧
    (get_active_window env).2 = (detect_session_type env).2 := by
  constructor <;> simp [get_active_window, h]

/-- C9 witness: the amended claim at the concrete unknown environment. -/
theorem claim_C9_unknown_dispatch_witness :
    (get_active_window unknownSessionEnv).1 = .ok none ∧
    (get_active_window unknownSessionEnv).2 = (detect_session_type unknownSessionEnv).2 :=
  claim_C9_unknown_dispatch unknownSessionEnv rfl

/-- C10: whenever `swaymsg` is on PATH, the Wayland backend never launches
`hyprctl` (the `elif` guard cannot be reached); a Sway query that exits
non-zero yields no sample, and a tree without a focused node yields no
sample — in neither case does the backend fall back to Hyprland. -/
theorem claim_C10_sway_priority (ew : WaylandEnv) (hs : ew.hasSwaymsg = true) :
    "hyprctl" ∉ (get_active_window_wayland ew).2 ∧
    (∀ rc out, ew.swaymsg = .done rc out → rc ≠ 0 →
      (get_active_window_wayland ew).1 = .ok none) ∧
    (∀ rc tree, ew.swaymsg = .done rc (.obj tree) → findFocusedWindow tree = none →
      (get_active_window_wayland ew).1 = .ok none) := by
  refine ⟨?_, ?_, ?_⟩
  · rw [wayland_trace_sway ew hs]; decide
  · intro rc out hq hrc; exact wayland_sway_fail_none ew rc out hs hq hrc
  · intro rc tree hq hf; exact wayland_sway_nofocus_none ew rc tree hs hq hf

/-- C10 witness: with both tools on PATH and a failing Sway query, the poll
yields no sample and never launches `hyprctl`. -/
theorem claim_C10_sway_priority_witness :
    "hyprctl" ∉ (get_active_window_wayland
      ⟨true, true, .done 1 (.obj (.mk false none none none [] [])), .missing⟩).2 ∧
    (get_active_window_wayland
      ⟨true, true, .done 1 (.obj (.mk false none none none [] [])), .missing⟩).1
      = .ok none := by
  have h := claim_C10_sway_priority
    ⟨true, true, .done 1 (.obj (.mk false none none none [] [])), .missing⟩ rfl
  exact ⟨h.1, h.2.1 1 (.obj (.mk false none none none [] [])) rfl (by decide)⟩

/- ===== Helper lemmas: decimal pid rendering and parsing ===== -/

theorem digitChar_sub48 (d : Nat) (hd : d < 10) : (Nat.digitChar d).toNat - 48 = d := by
  interval_cases d <;> decide

theorem digitChar_props (d : Nat) (hd : d < 10) :
    (Nat.digitChar d).isDigit = true ∧ isPySpace (Nat.digitChar d) = false ∧
    Nat.digitChar d ≠ '+' ∧ Nat.digitChar d ≠ '-' := by
  interval_cases d <;> exact ⟨by decide, by decide, by decide, by decide⟩

theorem digitsToNat_append (xs : List Char) (c : Char) :
    digitsToNat (xs ++ [c]) = digitsToNat xs * 10 + (c.toNat - 48) := by
  simp [digitsToNat, List.foldl_append]

theorem natReprAux_spec : ∀ (fuel n : Nat), n < fuel →
    digitsToNat (natReprAux fuel n) = n ∧
    natReprAux fuel n ≠ [] ∧
    ∀ c ∈ natReprAux fuel n,
      (c.isDigit = true ∧ isPySpace c = false ∧ c ≠ '+' ∧ c ≠ '-') := by
  intro fuel
  induction fuel with
  | zero => intro n h; omega
  | succ f ih =>
    intro n h
    by_cases h10 : n < 10
    · refine ⟨?_, by simp [natReprAux, h10], ?_⟩
      · rw [show natReprAux (f + 1) n = [Nat.digitChar n] from by simp [natReprAux, h10]]
        simp [digitsToNat]
        exact digitChar_sub48 n h10
      · intro c hc
        rw [show natReprAux (f + 1) n = [Nat.digitChar n] from by
          simp [natReprAux, h10]] at hc
        rw [List.mem_singleton.mp hc]
        exact digitChar_props n h10
    · have hdivlt : n / 10 < n := Nat.div_lt_self (by omega) (by omega)
      have hdiv : n / 10 < f := by omega
      obtain ⟨ihv, ihne, ihall⟩ := ih (n / 10) hdiv
      have hshape : natReprAux (f + 1) n
          = natReprAux f (n / 10) ++ [Nat.digitChar (n % 10)] := by
        simp [natReprAux, h10]
      have hmod : n % 10 < 10 := Nat.mod_lt _ (by omega)
      refine ⟨?_, by simp [hshape], ?_⟩
      · rw [hshape, digitsToNat_append, ihv, digitChar_sub48 (n % 10) hmod]
        omega
      · intro c hc
        rw [hshape] at hc
        rcases List.mem_append.mp hc with hc | hc
        · exact ihall c hc
        · rw [List.mem_singleton.mp hc]
          exact digitChar_props (n % 10) hmod

theorem pyParseInt_natRepr (n : Nat) :
    pyParseInt (String.mk (natRepr n)) = some (n : Int) := by
  obtain ⟨hval, hne, hall⟩ := natReprAux_spec (n + 1) n (by omega)
  have hstrip : pyStrip (natRepr n) = natRepr n := by
    apply stripWith_all_false
    intro c hc
    exact (hall c hc).2.1
  rcases hrep : natRepr n with _ | ⟨c, ds⟩
  · exact absurd hrep hne
  · have hcmem : c ∈ natRepr n := by rw [hrep]; exact List.mem_cons_self c ds
    have hcprops := hall c hcmem
    have halldig : (c :: ds).all Char.isDigit = true := by
      rw [List.all_eq_true]
      intro x hx
      have hxmem : x ∈ natRepr n := by rw [hrep]; exact hx
      exact (hall x hxmem).1
    have hv : digitsToNat (c :: ds) = n := by rw [← hrep]; exact hval
    have hstrip2 : pyStrip (c :: ds) = c :: ds := by rw [← hrep]; exact hstrip
    simp [pyParseInt, hstrip2, hcprops.2.2.1, hcprops.2.2.2, halldig, hv]

/- ===== Claim theorems: daemon supervisor ===== -/

/-- C8: `stop_daemon` with no marker file returns `False` without raising
and changes nothing (its body returns before any raising operation); an
existing but unparsable marker is deleted and `False` is returned; a marker
naming a dead process (first `os.kill` raises `ProcessLookupError`) is
deleted and `False` is returned; and whenever the marker existed on entry
it is gone after the call, whatever the liveness oracle says — so a stale
marker never survives `stop_daemon`.  The handler of `stop_daemon` catches
every exception its body can raise, so no exception escapes. -/
theorem claim_C8_stop_daemon (fs : DaemonFS) (alive : Int → Bool) :
    (fs.marker = none → stop_daemon fs alive = (false, fs)) ∧
    (∀ s, fs.marker = some s → pyParseInt s = none →
      stop_daemon fs alive = (false, ⟨none⟩)) ∧
    (∀ s pid, fs.marker = some s → pyParseInt s = some pid → alive pid = false →
      stop_daemon fs alive = (false, ⟨none⟩)) ∧
    (∀ s, fs.marker = some s → (stop_daemon fs alive).2.marker = none) := by
  refine ⟨?_, ?_, ?_, ?_⟩
  · intro h; simp [stop_daemon, stop_daemon_body, h]
  · intro s h hp; simp [stop_daemon, stop_daemon_body, h, hp]
  · intro s pid h hp ha; simp [stop_daemon, stop_daemon_body, h, hp, ha]
  · intro s h
    rcases hp : pyParseInt s with _ | pid
    · simp [stop_daemon, stop_daemon_body, h, hp]
    · by_cases ha : alive pid = true <;>
        simp [stop_daemon, stop_daemon_body, h, hp, ha]

/-- C8 witness: no marker; an unparsable marker; a marker naming a dead
pid — all return `False`, and the marker is gone afterwards. -/
theorem claim_C8_stop_daemon_witness :
    stop_daemon ⟨none⟩ (fun _ => true) = (false, ⟨none⟩) ∧
    stop_daemon ⟨some "garbage"⟩ (fun _ => true) = (false, ⟨none⟩) ∧
    stop_daemon ⟨some "4242"⟩ (fun _ => false) = (false, ⟨none⟩) := by
  refine ⟨?_, ?_, ?_⟩
  · exact (claim_C8_stop_daemon ⟨none⟩ (fun _ => true)).1 rfl
  · exact (claim_C8_stop_daemon ⟨some "garbage"⟩ (fun _ => true)).2.1 "garbage" rfl
      (by decide)
  · exact (claim_C8_stop_daemon ⟨some "4242"⟩ (fun _ => false)).2.2.1 "4242" 4242 rfl
      (by decide) rfl

/-- C1 (code bug): after a `start_daemon` run that passed the `is_running`
check, the marker file holds `str(child1)` — the pid returned by the FIRST
fork, i.e. the intermediate process that exits immediately after the second
fork — while the accounting loop runs in the grandchild `child2`.  Since
the two forks return distinct pids, the marker never names the process
running the loop, and once the intermediate process is reaped (its pid no
longer probes as alive), `is_running` is false, contradicting the claim
that the marker contains the loop process's pid and that `is_running()` is
true afterwards. -/
theorem claim_C1_pid_marker_bug (child1 child2 : Nat) (hne : child1 ≠ child2)
    (alive : Int → Bool) (hdead : alive (child1 : Int) = false) :
    (start_daemon_outcome child1 child2).marker = some (String.mk (natRepr child1)) ∧
    (start_daemon_outcome child1 child2).loopPid = child2 ∧
    child1 ∈ (start_daemon_outcome child1 child2).exited ∧
    pyParseInt (String.mk (natRepr child1)) = some (child1 : Int) ∧
    some (child1 : Int) ≠ some (child2 : Int) ∧
    (is_running ⟨(start_daemon_outcome child1 child2).marker⟩ alive).1 = false := by
  refine ⟨rfl, rfl, List.mem_singleton.mpr rfl, pyParseInt_natRepr child1, ?_, ?_⟩
  · intro h
    apply hne
    exact_mod_cast Option.some.inj h
  · simp [is_running, start_daemon_outcome, pyParseInt_natRepr, hdead]

/-- C1 witness: forks returning pids 100 and 101: the marker reads `100`
(the exited intermediate), not the loop pid 101, and with pid 100 dead
`is_running` reports false. -/
theorem claim_C1_pid_marker_bug_witness :
    (start_daemon_outcome 100 101).marker = some "100" ∧
    (start_daemon_outcome 100 101).loopPid = 101 ∧
    (is_running ⟨(start_daemon_outcome 100 101).marker⟩ (fun _ => false)).1 = false := by
  have h := claim_C1_pid_marker_bug 100 101 (by decide) (fun _ => false) rfl
  exact ⟨h.1.trans (by decide), h.2.1, h.2.2.2.2.2⟩
